import Mathlib

/-!
Verification of the Stream-Watchdog repository's core logic.

Shallow embedding of:
  * the per-line output classifier of `monitor_ffmpeg_output`
    (Stream-Watchdog.py, regexes `speed=\s*(\d+\.?\d*)x` and the five
    decoder-error patterns), modelled on `List Char` with numeric values
    as exact rationals (the speeds at stake are short decimal literals,
    which Python parses and compares exactly in this range);
  * the per-stream monitor state machine of `monitor_ffmpeg_output`
    in Stream-Watchdog.py (buffering timer, switch cooldown, error
    counting window) and its variant in Stream-Master-Watchdog.py
    (`action_triggered` guard, buffer-timer extension);
  * `stop_watchdog` and the per-snapshot branch of `monitor_streams`;
  * the success test of `send_next_stream` in Modules/Dispatcharr.py.

The external switch call `send_next_stream` is modelled by an oracle
`Nat → Bool` indexed by the number of switch invocations made so far, so
"the switch succeeded/failed" is an input of the model and the number of
invocations is observable as a state field. The several `time.time()`
calls made while handling one line differ only by microseconds and are
modelled as a single timestamp per line.
-/

namespace StreamWatchdog

/-! ## Output classifier (Stream-Watchdog.py lines 166-175, 190-192, 244-245) -/

/-- Characters matched by the regex class `\s` on the ASCII range. -/
def isSpaceChar (c : Char) : Bool :=
  c = ' ' || c = '\t' || c = '\n' || c = '\r' || c = '\x0b' || c = '\x0c'

/-- Numeric value of a digit string (most significant first), with accumulator. -/
def digitsToNat : List Char → Nat → Nat
  | [], acc => acc
  | c :: cs, acc => digitsToNat cs (acc * 10 + (c.toNat - '0'.toNat))

/-- Split off the maximal run of leading decimal digits. -/
def spanDigits : List Char → List Char × List Char
  | [] => ([], [])
  | c :: cs =>
    if c.isDigit then
      let p := spanDigits cs
      (c :: p.1, p.2)
    else ([], c :: cs)

/-- Drop the maximal run of leading `\s` characters. -/
def dropSpaces : List Char → List Char
  | [] => []
  | c :: cs => if isSpaceChar c then dropSpaces cs else c :: cs

/-- Exact value of the decimal literal `d1.d2` (integer part `d1`, fraction `d2`). -/
def ratOfDigits (d1 d2 : List Char) : ℚ :=
  mkRat (Int.ofNat (digitsToNat (d1 ++ d2) 0)) (Nat.pow 10 d2.length)

/-- Match `\s*(\d+\.?\d*)x` at the start of `cs` (the tail of the speed regex
after the literal `speed=`), returning the captured number.  The regex is
greedy; maximal munch is exact here because after any shorter candidate for
`\d+`/`\d*` the next character is a digit or a dot, never the required `x`,
so backtracking can never turn a maximal-munch failure into a match. -/
def matchNumX (cs : List Char) : Option ℚ :=
  let cs1 := dropSpaces cs
  let p1 := spanDigits cs1
  if p1.1 = [] then none
  else
    match p1.2 with
    | '.' :: rest =>
      let p2 := spanDigits rest
      (match p2.2 with
       | 'x' :: _ => some (ratOfDigits p1.1 p2.1)
       | _ => none)
    | 'x' :: _ => some (ratOfDigits p1.1 [])
    | _ => none

/-- The literal head of the speed regex. -/
def speedLit : List Char := "speed=".data

/-- `re.search` of `speed=\s*(\d+\.?\d*)x`: try every start offset from the
left and return the first full match.  Offsets where `speed=` is present but
no number-plus-`x` follows are skipped, exactly as `re.search` does. -/
def findSpeed : List Char → Option ℚ
  | [] => none
  | c :: rest =>
    if speedLit.isPrefixOf (c :: rest) then
      match matchNumX ((c :: rest).drop 6) with
      | some q => some q
      | none => findSpeed rest
    else findSpeed rest

/-- The value captured by `speed_pattern.search(line)`, if any. -/
def speedTokenValue (line : String) : Option ℚ :=
  findSpeed line.data

/-- One element of a linearised regex: a literal run or `\d+`. -/
inductive Tok where
  | lit (cs : List Char)
  | digits
deriving DecidableEq

/-- Match a token sequence at the start of `cs`.  `digits` is greedy; this is
exact for the error patterns below because every literal following a `digits`
token starts with a non-digit character. -/
def matchToksAt : List Tok → List Char → Bool
  | [], _ => true
  | Tok.lit l :: ts, cs =>
    if l.isPrefixOf cs then matchToksAt ts (cs.drop l.length) else false
  | Tok.digits :: ts, cs =>
    let p := spanDigits cs
    if p.1 = [] then false else matchToksAt ts p.2

/-- `re.search` for a linearised pattern: some start offset matches. -/
def searchToks (p : List Tok) : List Char → Bool
  | [] => matchToksAt p []
  | c :: rest => if matchToksAt p (c :: rest) then true else searchToks p rest

/-- `re.compile(r"corrupt decoded frame")` -/
def pat1 : List Tok := [Tok.lit "corrupt decoded frame".data]

/-- `re.compile(r"error while decoding")` -/
def pat2 : List Tok := [Tok.lit "error while decoding".data]

/-- `re.compile(r"Invalid data found when processing input")` -/
def pat3 : List Tok := [Tok.lit "Invalid data found when processing input".data]

/-- `re.compile(r"Reference \d+ >= \d+")` -/
def pat4 : List Tok :=
  [Tok.lit "Reference ".data, Tok.digits, Tok.lit " >= ".data, Tok.digits]

/-- `re.compile(r"concealing \d+ DC, \d+ AC, \d+ MV errors")` -/
def pat5 : List Tok :=
  [Tok.lit "concealing ".data, Tok.digits, Tok.lit " DC, ".data, Tok.digits,
   Tok.lit " AC, ".data, Tok.digits, Tok.lit " MV errors".data]

/-- `ERROR_PATTERNS`, in source order. -/
def errorPatterns : List (List Tok) := [pat1, pat2, pat3, pat4, pat5]

/-- Per-pattern match results of one line against `ERROR_PATTERNS`. -/
def errorFlags (line : String) : List Bool :=
  errorPatterns.map (fun p => searchToks p line.data)

/-- Plain substring containment (a one-literal pattern search). -/
def containsSub (pat : List Char) : List Char → Bool :=
  searchToks [Tok.lit pat]

/-- A health signal extracted from one line: a speed sample or the index of a
matched error pattern.  A line that produces no signal at all is the spec's
`Ignored` outcome. -/
inductive Signal where
  | speedSig (q : ℚ)
  | errSig (i : Nat)
deriving DecidableEq

/-- All signals one line yields in `monitor_ffmpeg_output`: the speed sample
when the speed regex matches, and — when error checking is enabled
(`ERROR_THRESHOLD > 0`) — one error signal per matching error pattern. -/
def classify (errEnabled : Bool) (line : String) : List Signal :=
  (match speedTokenValue line with
   | some q => [Signal.speedSig q]
   | none => []) ++
  (if errEnabled then
    (errorFlags line).enum.filterMap
      (fun p => if p.2 then some (Signal.errSig p.1) else none)
   else [])

/-! ## Per-stream monitor state machine (Stream-Watchdog.py lines 163-296)

One `monitor_ffmpeg_output` thread owns, for its stream: the entry of
`watchdog_speeds` and `buffer_start_times` for its id, and the local
variables `stream_switched`, `error_count`, `error_start_time`,
`last_switch_time`.  `switchCalls` counts the `send_next_stream`
invocations made so far; the oracle's value at that index is the call's
result.  Name bookkeeping (`watchdog_names`) only feeds log lines in this
file and is omitted from the state. -/

structure Config where
  speedThreshold : ℚ
  bufferTimeThreshold : ℚ
  bufferExtensionTime : ℚ
  errorThreshold : Nat
  errorSwitchCooldown : ℚ
  errorResetTime : ℚ
deriving DecidableEq

/-- The environment defaults of Stream-Watchdog.py (error checking disabled). -/
def defaultConfig : Config :=
  { speedThreshold := 1, bufferTimeThreshold := 30, bufferExtensionTime := 10,
    errorThreshold := 0, errorSwitchCooldown := 10, errorResetTime := 20 }

structure MonState where
  speed : Option ℚ
  bufferStart : Option ℚ
  streamSwitched : Bool
  errorCount : Nat
  errorStart : Option ℚ
  lastSwitch : ℚ
  switchCalls : Nat
deriving DecidableEq

/-- State at monitor start (lines 177-180; no `buffer_start_times` entry). -/
def initMonState : MonState :=
  { speed := none, bufferStart := none, streamSwitched := false,
    errorCount := 0, errorStart := none, lastSwitch := 0, switchCalls := 0 }

/-- The speed branch of `monitor_ffmpeg_output` (lines 190-240) for one line
read at time `T`: `sv` is the captured speed value, if the regex matched. -/
def processSpeed (cfg : Config) (oracle : Nat → Bool) (T : ℚ) (sv : Option ℚ)
    (s : MonState) : MonState :=
  match sv with
  | none => s
  | some v =>
    let s := { s with speed := some v }
    if v < cfg.speedThreshold then
      let b := s.bufferStart.getD T
      let s := { s with bufferStart := some b }
      if cfg.bufferTimeThreshold ≤ T - b then
        if s.streamSwitched = false ∨
            cfg.bufferTimeThreshold + cfg.bufferExtensionTime < T - s.lastSwitch then
          let ok := oracle s.switchCalls
          let s := { s with switchCalls := s.switchCalls + 1 }
          if ok then { s with streamSwitched := true, lastSwitch := T } else s
        else s
      else s
    else
      { s with bufferStart := none, streamSwitched := false, lastSwitch := 0 }

/-- The body of the error-pattern loop for one *matching* pattern
(lines 246-285).  The returned flag is `continue_read = False`, i.e. the
loop over the remaining patterns stops (a switch was attempted); the
cooldown path instead `continue`s with the next pattern. -/
def errStep (cfg : Config) (oracle : Nat → Bool) (T : ℚ) (s : MonState) :
    MonState × Bool :=
  let c := s.errorCount + 1
  let est := s.errorStart.getD T
  let cr := if cfg.errorResetTime < T - est then (1, T) else (c, est)
  let s := { s with errorCount := cr.1, errorStart := some cr.2 }
  if cfg.errorThreshold ≤ s.errorCount then
    if T - s.lastSwitch < cfg.errorSwitchCooldown then (s, false)
    else
      let ok := oracle s.switchCalls
      let s := { s with switchCalls := s.switchCalls + 1 }
      if ok then ({ s with streamSwitched := true, lastSwitch := T, errorCount := 0 }, true)
      else (s, true)
  else (s, false)

/-- The `for error_pattern in ERROR_PATTERNS` loop (lines 244-285), given the
per-pattern match results of the line. -/
def errFold (cfg : Config) (oracle : Nat → Bool) (T : ℚ) :
    List Bool → MonState → MonState
  | [], s => s
  | m :: ms, s =>
    if m then
      let r := errStep cfg oracle T s
      if r.2 then r.1 else errFold cfg oracle T ms r.1
    else errFold cfg oracle T ms s

/-- Processing of one full line of ffmpeg output read at time `T`
(lines 184-287): the speed branch, then — when `ERROR_THRESHOLD > 0` — the
error-pattern loop.  `continue_read` is reset to `True` before the next
line (line 287), so it does not persist across lines. -/
def processLine (cfg : Config) (oracle : Nat → Bool) (T : ℚ) (line : String)
    (s : MonState) : MonState :=
  let s1 := processSpeed cfg oracle T (speedTokenValue line) s
  if 0 < cfg.errorThreshold then errFold cfg oracle T (errorFlags line) s1 else s1

/-- A run of the monitor over successive speed samples `(time, ratio)`. -/
def runSpeedTicks (cfg : Config) (oracle : Nat → Bool)
    (ticks : List (ℚ × ℚ)) (s : MonState) : MonState :=
  ticks.foldl (fun s tv => processSpeed cfg oracle tv.1 (some tv.2) s) s

/-- A run of the monitor over successive raw lines read at the given times. -/
def runLines (cfg : Config) (oracle : Nat → Bool)
    (items : List (ℚ × String)) (s : MonState) : MonState :=
  items.foldl (fun s it => processLine cfg oracle it.1 it.2 s) s

/-! ## Stream-Master-Watchdog.py variant (lines 131-186)

This variant guards switching with the `action_triggered` set instead of a
cooldown: the stream id is added before the attempt, removed again on
success (and whenever speed recovers), and kept on failure.  On success the
buffering timer is moved to `time.time() + BUFFER_EXTENSION_TIME` and the
display name is refreshed from `get_running_streams` (modelled by the
`freshName` input).  The local `stream_swtiched` [sic] flag only feeds a
log line and the recovery branch. -/

structure MState where
  speed : Option ℚ
  bufferStart : Option ℚ
  streamSwitched : Bool
  actionTriggered : Bool
  displayName : String
  switchCalls : Nat
deriving DecidableEq

def initMState : MState :=
  { speed := none, bufferStart := none, streamSwitched := false,
    actionTriggered := false, displayName := "", switchCalls := 0 }

/-- One speed sample `v` read at time `T` in Stream-Master-Watchdog.py's
`monitor_ffmpeg_output` (lines 138-179). -/
def masterProcessSpeed (cfg : Config) (oracle : Nat → Bool) (freshName : String)
    (T v : ℚ) (s : MState) : MState :=
  let s := { s with speed := some v }
  if v < cfg.speedThreshold then
    match s.bufferStart with
    | none => { s with bufferStart := some T }
    | some b =>
      if cfg.bufferTimeThreshold ≤ T - b ∧ s.actionTriggered = false then
        let s := { s with actionTriggered := true }
        let ok := oracle s.switchCalls
        let s := { s with switchCalls := s.switchCalls + 1 }
        if ok then
          { s with streamSwitched := true, actionTriggered := false,
                   bufferStart := some (T + cfg.bufferExtensionTime),
                   displayName := freshName }
        else s
      else s
  else
    let s :=
      if s.bufferStart = none then s
      else { s with bufferStart := none, streamSwitched := false }
    { s with actionTriggered := false }

/-- A run of the Master-variant monitor over speed samples `(time, ratio)`. -/
def runMaster (cfg : Config) (oracle : Nat → Bool) (freshName : String)
    (ticks : List (ℚ × ℚ)) (s : MState) : MState :=
  ticks.foldl (fun s tv => masterProcessSpeed cfg oracle freshName tv.1 tv.2 s) s

/-! ## Watchdog registry, `stop_watchdog` and `monitor_streams`
(Stream-Watchdog.py lines 43-48, 139-161, 299-325)

Python dicts keyed by stream id are modelled as association lists with
key-filtering erase (a dict holds at most one binding per key, so filtering
is exactly `pop`/`del`), and the `action_triggered` set as a list with
filtering discard.  A process handle is its `poll() is None` status:
`true` while the ffmpeg child still runs. -/

def alistLookup {α : Type} (k : String) : List (String × α) → Option α
  | [] => none
  | p :: ps => if p.1 = k then some p.2 else alistLookup k ps

def alistErase {α : Type} (k : String) : List (String × α) → List (String × α)
  | [] => []
  | p :: ps => if p.1 = k then alistErase k ps else p :: alistErase k ps

def setDiscard (k : String) : List String → List String
  | [] => []
  | x :: xs => if x = k then setDiscard k xs else x :: setDiscard k xs

structure WatchState where
  processes : List (String × Bool)
  speeds : List (String × ℚ)
  names : List (String × String)
  bufferStarts : List (String × ℚ)
  actionTriggered : List String
deriving DecidableEq

def emptyWatchState : WatchState :=
  { processes := [], speeds := [], names := [], bufferStarts := [],
    actionTriggered := [] }

/-- `stop_watchdog(stream_id, ...)` (lines 139-161): pop the process handle
(no-op when absent), terminate it only when it is still running, then clear
the per-stream entries of every map.  The second component counts the
terminate/kill signals sent to a process (0 or 1): `pop` with a default,
`discard` and the guarded `del` raise nothing, so the function is total. -/
def stop_watchdog (stream_id : String) (w : WatchState) : WatchState × Nat :=
  let proc := alistLookup stream_id w.processes
  let kills := match proc with
    | some running => if running then 1 else 0
    | none => 0
  ({ processes := alistErase stream_id w.processes,
     speeds := alistErase stream_id w.speeds,
     names := alistErase stream_id w.names,
     bufferStarts := alistErase stream_id w.bufferStarts,
     actionTriggered := setDiscard stream_id w.actionTriggered }, kills)

/-- One backend snapshot entry as returned by `get_running_streams`. -/
structure Snapshot where
  id : String
  name : String
  clients : List String
deriving DecidableEq

/-- `start_watchdog(stream_id, stream_name)` (lines 97-136) as it affects the
registry: register a fresh (running) process handle and the stream name. -/
def start_watchdog (stream_id stream_name : String) (w : WatchState) : WatchState :=
  { w with processes := (stream_id, true) :: w.processes,
           names := (stream_id, stream_name) :: w.names }

/-- The per-snapshot branch of `monitor_streams` (lines 307-321), also
returning the ids the tick started so far. -/
def reconcileStream (ua : String) (w : WatchState) (started : List String)
    (snap : Snapshot) : WatchState × List String :=
  if alistLookup snap.id w.processes = none ∧ ua ∉ snap.clients then
    let w := { w with speeds := alistErase snap.id w.speeds }
    (start_watchdog snap.id snap.name w, started ++ [snap.id])
  else if ua ∈ snap.clients ∧ snap.clients.length = 1 then
    ((stop_watchdog snap.id w).1, started)
  else if ua ∉ snap.clients ∧ alistLookup snap.id w.processes ≠ none then
    ((stop_watchdog snap.id w).1, started)
  else (w, started)

/-- One reconciliation tick of `monitor_streams` (lines 304-325): process
every snapshot in order, then stop watchdogs whose id is absent from the
current snapshot list. -/
def reconcileTick (ua : String) (snaps : List Snapshot) (w : WatchState) :
    WatchState × List String :=
  let ws := snaps.foldl
    (fun (p : WatchState × List String) snap => reconcileStream ua p.1 p.2 snap)
    (w, [])
  let currentIds := snaps.map (fun s => s.id)
  let stale := (ws.1.processes.map (fun p => p.1)).filter (fun i => i ∉ currentIds)
  (stale.foldl (fun w i => (stop_watchdog i w).1) ws.1, ws.2)

/-! ## Dispatcharr adapter success test (Modules/Dispatcharr.py lines 216-222) -/

/-- A parsed JSON value, as produced by `response.json()`. -/
inductive JVal where
  | jnull
  | jbool (b : Bool)
  | jnum (q : ℚ)
  | jstr (s : String)
  | jarr (xs : List JVal)
  | jobj (fields : List (String × JVal))

/-- Python truthiness of a JSON-decoded value. -/
def truthy : JVal → Bool
  | JVal.jnull => false
  | JVal.jbool b => b
  | JVal.jnum q => q ≠ 0
  | JVal.jstr s => s ≠ ""
  | JVal.jarr [] => false
  | JVal.jarr (_ :: _) => true
  | JVal.jobj [] => false
  | JVal.jobj (_ :: _) => true

/-- `result.get("message", 'Stream switched to next available')`. -/
def dispatcharrMessage (body : List (String × JVal)) : JVal :=
  (alistLookup "message" body).getD (JVal.jstr "Stream switched to next available")

/-- The value `send_next_stream` returns once `raise_for_status` has passed
and the body parsed as a JSON object: `True` iff the message is truthy. -/
def send_next_stream_success (body : List (String × JVal)) : Bool :=
  truthy (dispatcharrMessage body)

/-- Number of `true` entries of a flag list (how many error patterns matched). -/
def countTrue : List Bool → Nat
  | [] => 0
  | b :: bs => (if b then 1 else 0) + countTrue bs

/-- The configuration of claim C5: errorThreshold 3, errorResetTime 20s,
errorSwitchCooldown 10s (the defaults of the remaining options). -/
def errorConfig : Config := { defaultConfig with errorThreshold := 3 }

/-! ## Helper lemmas -/

lemma alistLookup_erase_self {α : Type} (k : String) (l : List (String × α)) :
    alistLookup k (alistErase k l) = none := by
  induction l with
  | nil => rfl
  | cons p ps ih =>
    by_cases h : p.1 = k
    · simp [alistErase, h, ih]
    · simp [alistErase, alistLookup, h, ih]

lemma alistErase_idem {α : Type} (k : String) (l : List (String × α)) :
    alistErase k (alistErase k l) = alistErase k l := by
  induction l with
  | nil => rfl
  | cons p ps ih =>
    by_cases h : p.1 = k
    · simp [alistErase, h, ih]
    · simp [alistErase, h, ih]

lemma setDiscard_idem (k : String) (l : List String) :
    setDiscard k (setDiscard k l) = setDiscard k l := by
  induction l with
  | nil => rfl
  | cons x xs ih =>
    by_cases h : x = k
    · simp [setDiscard, h, ih]
    · simp [setDiscard, h, ih]

lemma not_mem_setDiscard (k : String) (l : List String) :
    k ∉ setDiscard k l := by
  induction l with
  | nil => simp [setDiscard]
  | cons x xs ih =>
    by_cases h : x = k
    · simp [setDiscard, h, ih]
    · simp [setDiscard, h, ih, Ne.symm h]

lemma runSpeedTicks_nil (cfg : Config) (oracle : Nat → Bool) (s : MonState) :
    runSpeedTicks cfg oracle [] s = s := rfl

lemma runSpeedTicks_cons (cfg : Config) (oracle : Nat → Bool) (p : ℚ × ℚ)
    (ps : List (ℚ × ℚ)) (s : MonState) :
    runSpeedTicks cfg oracle (p :: ps) s
      = runSpeedTicks cfg oracle ps (processSpeed cfg oracle p.1 (some p.2) s) := rfl

lemma runSpeedTicks_append (cfg : Config) (oracle : Nat → Bool)
    (l1 l2 : List (ℚ × ℚ)) (s : MonState) :
    runSpeedTicks cfg oracle (l1 ++ l2) s
      = runSpeedTicks cfg oracle l2 (runSpeedTicks cfg oracle l1 s) := by
  simp [runSpeedTicks, List.foldl_append]

/-- First low-speed sample with no buffering episode open: the timer starts
at `T` and (threshold positive) nothing else changes but the stored speed. -/
lemma processSpeed_first_low (cfg : Config) (oracle : Nat → Bool) (T v : ℚ)
    (s : MonState) (hv : v < cfg.speedThreshold) (hb : s.bufferStart = none)
    (hpos : 0 < cfg.bufferTimeThreshold) :
    processSpeed cfg oracle T (some v) s
      = { s with speed := some v, bufferStart := some T } := by
  simp only [processSpeed, hb, Option.getD_none, sub_self]
  rw [if_pos hv, if_neg (not_le.mpr hpos)]

/-- Low-speed sample during an episode that has not yet lasted the
threshold: only the stored speed changes. -/
lemma processSpeed_low_early (cfg : Config) (oracle : Nat → Bool) (T v b : ℚ)
    (s : MonState) (hv : v < cfg.speedThreshold) (hb : s.bufferStart = some b)
    (hT : T - b < cfg.bufferTimeThreshold) :
    processSpeed cfg oracle T (some v) s = { s with speed := some v } := by
  simp only [processSpeed, hb, Option.getD_some]
  rw [if_pos hv, if_neg (not_le.mpr hT)]

/-- Low-speed sample crossing the buffering-time threshold with no switch in
flight: exactly one switch call is made, and on success the flag is set. -/
lemma processSpeed_cross (cfg : Config) (oracle : Nat → Bool) (T v b : ℚ)
    (s : MonState) (hv : v < cfg.speedThreshold) (hb : s.bufferStart = some b)
    (hT : cfg.bufferTimeThreshold ≤ T - b) (hsw : s.streamSwitched = false) :
    (processSpeed cfg oracle T (some v) s).switchCalls = s.switchCalls + 1 ∧
    (oracle s.switchCalls = true →
      (processSpeed cfg oracle T (some v) s).streamSwitched = true) := by
  simp only [processSpeed, hb, Option.getD_some]
  rw [if_pos hv, if_pos hT, if_pos (Or.inl hsw)]
  constructor
  · split <;> rfl
  · intro h
    simp [h]

/-- While every sample stays low and the episode stays under the time
threshold, the open episode, the cleared switch flag and the absence of
switch calls are invariant. -/
lemma runSpeedTicks_low_invariant (cfg : Config) (oracle : Nat → Bool)
    (t0 : ℚ) (mid : List (ℚ × ℚ)) :
    ∀ s : MonState, s.bufferStart = some t0 → s.streamSwitched = false →
      s.switchCalls = 0 →
      (∀ p ∈ mid, p.2 < cfg.speedThreshold ∧ p.1 - t0 < cfg.bufferTimeThreshold) →
      (runSpeedTicks cfg oracle mid s).bufferStart = some t0 ∧
      (runSpeedTicks cfg oracle mid s).streamSwitched = false ∧
      (runSpeedTicks cfg oracle mid s).switchCalls = 0 := by
  induction mid with
  | nil => intro s h1 h2 h3 _; exact ⟨h1, h2, h3⟩
  | cons p ps ih =>
    intro s h1 h2 h3 hall
    have hp := hall p (List.mem_cons_self p ps)
    rw [runSpeedTicks_cons,
      processSpeed_low_early cfg oracle p.1 p.2 t0 s hp.1 h1 hp.2]
    exact ih { s with speed := some p.2 } h1 h2 h3
      (fun q hq => hall q (List.mem_cons_of_mem p hq))

lemma runLines_nil (cfg : Config) (oracle : Nat → Bool) (s : MonState) :
    runLines cfg oracle [] s = s := rfl

lemma runLines_cons (cfg : Config) (oracle : Nat → Bool) (p : ℚ × String)
    (ps : List (ℚ × String)) (s : MonState) :
    runLines cfg oracle (p :: ps) s
      = runLines cfg oracle ps (processLine cfg oracle p.1 p.2 s) := rfl

/-- The speed branch never touches the error counters. -/
lemma processSpeed_preserves_error (cfg : Config) (oracle : Nat → Bool)
    (T : ℚ) (sv : Option ℚ) (s : MonState) :
    (processSpeed cfg oracle T sv s).errorCount = s.errorCount ∧
    (processSpeed cfg oracle T sv s).errorStart = s.errorStart := by
  cases sv with
  | none => exact ⟨rfl, rfl⟩
  | some v =>
    simp only [processSpeed]
    split_ifs <;> exact ⟨rfl, rfl⟩

/-- A matched speed token always updates the stored speed. -/
lemma processSpeed_speed_some (cfg : Config) (oracle : Nat → Bool)
    (T v : ℚ) (s : MonState) :
    (processSpeed cfg oracle T (some v) s).speed = some v := by
  simp only [processSpeed]
  split_ifs <;> rfl

/-- One matching error pattern with the window open and the incremented
count still below the threshold: the count increments, nothing else moves,
and the pattern loop continues. -/
lemma errStep_below (cfg : Config) (oracle : Nat → Bool) (T e : ℚ) (s : MonState)
    (hes : s.errorStart = some e) (hwin : ¬(cfg.errorResetTime < T - e))
    (hbelow : ¬(cfg.errorThreshold ≤ s.errorCount + 1)) :
    errStep cfg oracle T s
      = ({ s with errorCount := s.errorCount + 1, errorStart := some e }, false) := by
  simp only [errStep, hes, Option.getD_some]
  rw [if_neg hwin, if_neg hbelow]

/-- The first matching error pattern ever: the window opens at `T`. -/
lemma errStep_first (cfg : Config) (oracle : Nat → Bool) (T : ℚ) (s : MonState)
    (hes : s.errorStart = none) (hpos : 0 ≤ cfg.errorResetTime)
    (hbelow : ¬(cfg.errorThreshold ≤ s.errorCount + 1)) :
    errStep cfg oracle T s
      = ({ s with errorCount := s.errorCount + 1, errorStart := some T }, false) := by
  simp only [errStep, hes, Option.getD_none, sub_self]
  rw [if_neg (not_lt.mpr hpos), if_neg hbelow]

/-- A matching error pattern after the reset window elapsed: the count
restarts at 1 and the window reopens at `T`. -/
lemma errStep_reset (cfg : Config) (oracle : Nat → Bool) (T e : ℚ) (s : MonState)
    (hes : s.errorStart = some e) (hwin : cfg.errorResetTime < T - e)
    (hone : ¬(cfg.errorThreshold ≤ 1)) :
    errStep cfg oracle T s
      = ({ s with errorCount := 1, errorStart := some T }, false) := by
  simp only [errStep, hes, Option.getD_some]
  rw [if_pos hwin, if_neg hone]

/-- While the incremented counts stay below the threshold and the window
stays open, the pattern loop adds one error per matching pattern and touches
nothing else. -/
lemma errFold_no_switch (cfg : Config) (oracle : Nat → Bool) (T : ℚ)
    (flags : List Bool) :
    ∀ (s : MonState) (e : ℚ), s.errorStart = some e →
      T - e ≤ cfg.errorResetTime →
      s.errorCount + countTrue flags < cfg.errorThreshold →
      (errFold cfg oracle T flags s).errorCount = s.errorCount + countTrue flags ∧
      (errFold cfg oracle T flags s).errorStart = some e ∧
      (errFold cfg oracle T flags s).switchCalls = s.switchCalls ∧
      (errFold cfg oracle T flags s).speed = s.speed ∧
      (errFold cfg oracle T flags s).bufferStart = s.bufferStart ∧
      (errFold cfg oracle T flags s).streamSwitched = s.streamSwitched ∧
      (errFold cfg oracle T flags s).lastSwitch = s.lastSwitch := by
  induction flags with
  | nil =>
    intro s e h1 _ _
    simp [errFold, countTrue, h1]
  | cons m ms ih =>
    intro s e h1 h2 h3
    cases m with
    | false =>
      have hms : s.errorCount + countTrue ms < cfg.errorThreshold := by
        simp only [countTrue, if_neg] at h3
        simpa using h3
      have heq : errFold cfg oracle T (false :: ms) s = errFold cfg oracle T ms s := by
        simp [errFold]
      rw [heq]
      have := ih s e h1 h2 hms
      simpa [countTrue] using this
    | true =>
      have hc : countTrue (true :: ms) = countTrue ms + 1 := by
        simp [countTrue]
        omega
      have hbelow : ¬(cfg.errorThreshold ≤ s.errorCount + 1) := by
        rw [hc] at h3
        omega
      have hstep := errStep_below cfg oracle T e s h1 (not_lt.mpr h2) hbelow
      have heq : errFold cfg oracle T (true :: ms) s
          = errFold cfg oracle T ms
              { s with errorCount := s.errorCount + 1, errorStart := some e } := by
        simp [errFold, hstep]
      rw [heq]
      have hih := ih { s with errorCount := s.errorCount + 1, errorStart := some e }
        e rfl h2 (by rw [hc] at h3; simpa using by omega)
      refine ⟨?_, hih.2.1, hih.2.2.1, hih.2.2.2.1, hih.2.2.2.2.1,
        hih.2.2.2.2.2.1, hih.2.2.2.2.2.2⟩
      rw [hih.1]
      simp only [hc]
      omega

/-- A line whose only signal is one decoder-error match (pattern 2): the
whole per-line processing is a single error-loop body. -/
lemma processLine_single_error (cfg : Config) (oracle : Nat → Bool) (T : ℚ)
    (s : MonState) (h : 0 < cfg.errorThreshold) :
    processLine cfg oracle T "error while decoding" s = (errStep cfg oracle T s).1 := by
  have h1 : speedTokenValue "error while decoding" = none := by decide
  have h2 : errorFlags "error while decoding" = [false, true, false, false, false] := by
    decide
  simp only [processLine, h1, h2, if_pos h]
  have h3 : processSpeed cfg oracle T none s = s := rfl
  rw [h3]
  rcases hr : errStep cfg oracle T s with ⟨s2, brk⟩
  cases brk
  · simp [errFold, hr]
  · simp [errFold, hr]

/-- A matching error pattern that reaches the threshold outside the cooldown
makes exactly one switch call. -/
lemma errStep_trigger_calls (cfg : Config) (oracle : Nat → Bool) (T e : ℚ)
    (s : MonState) (hes : s.errorStart = some e)
    (hwin : ¬(cfg.errorResetTime < T - e))
    (hreach : cfg.errorThreshold ≤ s.errorCount + 1)
    (hcool : ¬(T - s.lastSwitch < cfg.errorSwitchCooldown)) :
    (errStep cfg oracle T s).1.switchCalls = s.switchCalls + 1 := by
  simp only [errStep, hes, Option.getD_some]
  rw [if_neg hwin, if_pos hreach, if_neg hcool]
  split <;> rfl

/-! ## Claim theorems -/

/-- Claim C1: starting unswitched, for a stream whose speed samples all stay
below the speed threshold, no switch call is made at any evaluation before
the buffering duration reaches `bufferTimeThreshold`, exactly one switch
call is made at the first evaluation where it does, and if that call
succeeds the `stream_switched` flag becomes true. -/
theorem c1_first_threshold_crossing_switches_once
    (cfg : Config) (oracle : Nat → Bool) (t0 v0 tk vk : ℚ) (mid : List (ℚ × ℚ))
    (hpos : 0 < cfg.bufferTimeThreshold)
    (hv0 : v0 < cfg.speedThreshold)
    (hmid : ∀ p ∈ mid, p.2 < cfg.speedThreshold ∧ p.1 - t0 < cfg.bufferTimeThreshold)
    (hvk : vk < cfg.speedThreshold)
    (hk : cfg.bufferTimeThreshold ≤ tk - t0) :
    (runSpeedTicks cfg oracle ((t0, v0) :: mid) initMonState).switchCalls = 0 ∧
    (runSpeedTicks cfg oracle (((t0, v0) :: mid) ++ [(tk, vk)]) initMonState).switchCalls = 1 ∧
    (oracle 0 = true →
      (runSpeedTicks cfg oracle (((t0, v0) :: mid) ++ [(tk, vk)]) initMonState).streamSwitched
        = true) := by
  have hfirst : processSpeed cfg oracle t0 (some v0) initMonState
      = { initMonState with speed := some v0, bufferStart := some t0 } :=
    processSpeed_first_low cfg oracle t0 v0 initMonState hv0 rfl hpos
  have hinv := runSpeedTicks_low_invariant cfg oracle t0 mid
    { initMonState with speed := some v0, bufferStart := some t0 }
    rfl rfl rfl hmid
  have hrun : runSpeedTicks cfg oracle ((t0, v0) :: mid) initMonState
      = runSpeedTicks cfg oracle mid
          { initMonState with speed := some v0, bufferStart := some t0 } := by
    rw [runSpeedTicks_cons]
    exact congrArg (runSpeedTicks cfg oracle mid) hfirst
  rw [runSpeedTicks_append, hrun]
  refine ⟨hinv.2.2, ?_, ?_⟩
  · have := processSpeed_cross cfg oracle tk vk t0
      (runSpeedTicks cfg oracle mid
        { initMonState with speed := some v0, bufferStart := some t0 })
      hvk hinv.1 hk hinv.2.1
    rw [runSpeedTicks_cons, runSpeedTicks_nil]
    rw [this.1, hinv.2.2]
  · intro h
    have := processSpeed_cross cfg oracle tk vk t0
      (runSpeedTicks cfg oracle mid
        { initMonState with speed := some v0, bufferStart := some t0 })
      hvk hinv.1 hk hinv.2.1
    rw [runSpeedTicks_cons, runSpeedTicks_nil]
    exact this.2 (by rw [hinv.2.2]; exact h)

/-- Witness for C1: default thresholds, speed 1/2 at times 0, 10, and the
crossing at 30; the successful switch sets the flag. -/
theorem c1_witness :
    (runSpeedTicks defaultConfig (fun _ => true) [(0, 1/2), (10, 1/2)]
      initMonState).switchCalls = 0 ∧
    (runSpeedTicks defaultConfig (fun _ => true) ([(0, 1/2), (10, 1/2)] ++ [(30, 1/2)])
      initMonState).switchCalls = 1 ∧
    ((fun _ : Nat => true) 0 = true →
      (runSpeedTicks defaultConfig (fun _ => true) ([(0, 1/2), (10, 1/2)] ++ [(30, 1/2)])
        initMonState).streamSwitched = true) :=
  c1_first_threshold_crossing_switches_once defaultConfig (fun _ => true)
    0 (1/2) 30 (1/2) [(10, 1/2)]
    (of_decide_eq_true (by with_unfolding_all rfl))
    (of_decide_eq_true (by with_unfolding_all rfl))
    (by
      intro p hp
      rw [List.mem_singleton] at hp
      subst hp
      exact ⟨of_decide_eq_true (by with_unfolding_all rfl),
        of_decide_eq_true (by with_unfolding_all rfl)⟩)
    (of_decide_eq_true (by with_unfolding_all rfl))
    (of_decide_eq_true (by with_unfolding_all rfl))

/-- Counterexample to claim C2 as stated: in Stream-Master-Watchdog.py, with
speed 1/2 against threshold 1, a failed switch at the t = 30 evaluation
leaves the claimed switch-in-flight flag (`stream_swtiched`) false and the
episode open since t = 0, so the t = 60 evaluation qualifies again under the
claim (duration 60 ≥ 30, no switch in flight) — yet no retry happens: the
switch-call count stays at 1, because the failed attempt left the stream in
`action_triggered`. -/
theorem c2_counterexample :
    (runMaster defaultConfig (fun _ => false) "N" [(0, 1/2), (30, 1/2)]
      initMState).switchCalls = 1 ∧
    (runMaster defaultConfig (fun _ => false) "N" [(0, 1/2), (30, 1/2)]
      initMState).streamSwitched = false ∧
    (runMaster defaultConfig (fun _ => false) "N" [(0, 1/2), (30, 1/2)]
      initMState).bufferStart = some 0 ∧
    defaultConfig.bufferTimeThreshold ≤ (60 : ℚ) - 0 ∧
    (runMaster defaultConfig (fun _ => false) "N" [(0, 1/2), (30, 1/2), (60, 1/2)]
      initMState).switchCalls = 1 :=
  of_decide_eq_true (by with_unfolding_all rfl)

/-- Claim C2, amended to the code of Stream-Master-Watchdog.py: when a stream
is already buffering, a switch is attempted only if
`(T - bufferStartedAt) ≥ bufferTimeThreshold` and the stream is not marked
`action_triggered`; on a successful switch `bufferStartedAt` is moved to
`T` plus the configured extension time (a grace window), the display name is
refreshed and `stream_swtiched` becomes true with the mark cleared; on a
failed switch the stream stays buffering with `stream_swtiched` unchanged
but remains marked `action_triggered`, so no further switch is attempted
until a speed reading at or above the threshold clears the mark. -/
theorem c2_amended_master_switch_guard (cfg : Config) (oracle : Nat → Bool)
    (nm : String) (T v b : ℚ) (s : MState)
    (hv : v < cfg.speedThreshold) (hb : s.bufferStart = some b) :
    ((T - b < cfg.bufferTimeThreshold ∨ s.actionTriggered = true) →
      (masterProcessSpeed cfg oracle nm T v s).switchCalls = s.switchCalls ∧
      (masterProcessSpeed cfg oracle nm T v s).bufferStart = some b ∧
      (masterProcessSpeed cfg oracle nm T v s).actionTriggered = s.actionTriggered ∧
      (masterProcessSpeed cfg oracle nm T v s).streamSwitched = s.streamSwitched) ∧
    (cfg.bufferTimeThreshold ≤ T - b → s.actionTriggered = false →
      (masterProcessSpeed cfg oracle nm T v s).switchCalls = s.switchCalls + 1 ∧
      (oracle s.switchCalls = true →
        (masterProcessSpeed cfg oracle nm T v s).bufferStart
            = some (T + cfg.bufferExtensionTime) ∧
        (masterProcessSpeed cfg oracle nm T v s).streamSwitched = true ∧
        (masterProcessSpeed cfg oracle nm T v s).actionTriggered = false ∧
        (masterProcessSpeed cfg oracle nm T v s).displayName = nm) ∧
      (oracle s.switchCalls = false →
        (masterProcessSpeed cfg oracle nm T v s).bufferStart = some b ∧
        (masterProcessSpeed cfg oracle nm T v s).streamSwitched = s.streamSwitched ∧
        (masterProcessSpeed cfg oracle nm T v s).actionTriggered = true ∧
        (masterProcessSpeed cfg oracle nm T v s).displayName = s.displayName)) ∧
    (∀ T2 v2 : ℚ, cfg.speedThreshold ≤ v2 →
      (masterProcessSpeed cfg oracle nm T2 v2 s).actionTriggered = false) := by
  refine ⟨?_, ?_, ?_⟩
  · intro hcase
    have hguard : ¬(cfg.bufferTimeThreshold ≤ T - b ∧ s.actionTriggered = false) := by
      rcases hcase with h | h
      · exact fun hc => absurd hc.1 (not_le.mpr h)
      · intro hc
        rw [h] at hc
        exact absurd hc.2 (by simp)
    simp only [masterProcessSpeed, hb]
    rw [if_pos hv, if_neg hguard]
    exact ⟨rfl, rfl, rfl, rfl⟩
  · intro h1 h2
    simp only [masterProcessSpeed, hb]
    rw [if_pos hv, if_pos ⟨h1, h2⟩]
    rcases horacle : oracle s.switchCalls with _ | _
    · simp [horacle]
    · simp [horacle]
  · intro T2 v2 hv2
    simp only [masterProcessSpeed]
    rw [if_neg (not_lt.mpr hv2)]

/-- Witness for C2's amended theorem at concrete states: a still-marked
stream makes no call, and an unmarked qualifying stream makes one failed
call that sets the mark. -/
theorem c2_witness :
    (masterProcessSpeed defaultConfig (fun _ => false) "N" 60 (1/2)
      { initMState with bufferStart := some 0, actionTriggered := true }).switchCalls
        = ({ initMState with bufferStart := some 0, actionTriggered := true } : MState).switchCalls ∧
    (masterProcessSpeed defaultConfig (fun _ => false) "N" 30 (1/2)
      { initMState with bufferStart := some 0 }).switchCalls
        = ({ initMState with bufferStart := some 0 } : MState).switchCalls + 1 ∧
    (masterProcessSpeed defaultConfig (fun _ => false) "N" 30 (1/2)
      { initMState with bufferStart := some 0 }).actionTriggered = true :=
  ⟨((c2_amended_master_switch_guard defaultConfig (fun _ => false) "N" 60 (1/2) 0
      { initMState with bufferStart := some 0, actionTriggered := true }
      (of_decide_eq_true (by with_unfolding_all rfl)) rfl).1
      (Or.inr rfl)).1,
   ((c2_amended_master_switch_guard defaultConfig (fun _ => false) "N" 30 (1/2) 0
      { initMState with bufferStart := some 0 }
      (of_decide_eq_true (by with_unfolding_all rfl)) rfl).2.1
      (of_decide_eq_true (by with_unfolding_all rfl)) rfl).1,
   (((c2_amended_master_switch_guard defaultConfig (fun _ => false) "N" 30 (1/2) 0
      { initMState with bufferStart := some 0 }
      (of_decide_eq_true (by with_unfolding_all rfl)) rfl).2.1
      (of_decide_eq_true (by with_unfolding_all rfl)) rfl).2.2 rfl).2.2.1⟩

/-- Counterexample to claim C3 as stated: with error checking enabled
(threshold 3), the line `"speed=0.5x error while decoding"` carries a speed
token and still produces an Error signal (the error counter moves from 0 to
1 while the speed is stored), and the line
`"corrupt decoded frame while handling error while decoding"` matches two
error patterns and counts twice — not at most once. -/
theorem c3_counterexample :
    (processLine { defaultConfig with errorThreshold := 3 } (fun _ => true) 100
      "speed=0.5x error while decoding" initMonState).errorCount = 1 ∧
    (processLine { defaultConfig with errorThreshold := 3 } (fun _ => true) 100
      "speed=0.5x error while decoding" initMonState).speed = some (1/2) ∧
    (processLine { defaultConfig with errorThreshold := 3 } (fun _ => true) 100
      "corrupt decoded frame while handling error while decoding"
      initMonState).errorCount = 2 :=
  of_decide_eq_true (by with_unfolding_all rfl)

/-- Claim C3, amended to the code: speed and error classification of a line
are independent, not mutually exclusive.  A line yields its speed signal
whenever the speed token matches, and — error checking enabled, below the
switching threshold, inside the reset window — additionally increments the
error counter once per matching error pattern, speed token present or not. -/
theorem c3_amended_speed_and_errors_independent (cfg : Config)
    (oracle : Nat → Bool) (T : ℚ) (line : String) (s : MonState) (e : ℚ)
    (hth : 0 < cfg.errorThreshold) (hes : s.errorStart = some e)
    (hwin : T - e ≤ cfg.errorResetTime)
    (hbelow : s.errorCount + countTrue (errorFlags line) < cfg.errorThreshold) :
    (processLine cfg oracle T line s).errorCount
      = s.errorCount + countTrue (errorFlags line) ∧
    (∀ v : ℚ, speedTokenValue line = some v →
      (processLine cfg oracle T line s).speed = some v) := by
  have hpres := processSpeed_preserves_error cfg oracle T (speedTokenValue line) s
  have hfold := errFold_no_switch cfg oracle T (errorFlags line)
    (processSpeed cfg oracle T (speedTokenValue line) s) e
    (by rw [hpres.2]; exact hes) hwin (by rw [hpres.1]; exact hbelow)
  constructor
  · simp only [processLine, if_pos hth]
    rw [hfold.1, hpres.1]
  · intro v hv
    simp only [processLine, if_pos hth]
    rw [hfold.2.2.2.1, hv, processSpeed_speed_some]

/-- Witness for C3's amended theorem: the mixed line of the counterexample,
processed from an open one-error window, adds exactly its one matching
pattern and stores the parsed speed. -/
theorem c3_witness :
    (processLine { defaultConfig with errorThreshold := 3 } (fun _ => true) 100
      "speed=0.5x error while decoding"
      { initMonState with errorStart := some 95 }).errorCount
      = ({ initMonState with errorStart := some 95 } : MonState).errorCount
        + countTrue (errorFlags "speed=0.5x error while decoding") ∧
    (processLine { defaultConfig with errorThreshold := 3 } (fun _ => true) 100
      "speed=0.5x error while decoding"
      { initMonState with errorStart := some 95 }).speed = some (1/2) :=
  ⟨(c3_amended_speed_and_errors_independent
      { defaultConfig with errorThreshold := 3 } (fun _ => true) 100
      "speed=0.5x error while decoding" { initMonState with errorStart := some 95 }
      95 (by decide) rfl
      (of_decide_eq_true (by with_unfolding_all rfl))
      (of_decide_eq_true (by with_unfolding_all rfl))).1,
   (c3_amended_speed_and_errors_independent
      { defaultConfig with errorThreshold := 3 } (fun _ => true) 100
      "speed=0.5x error while decoding" { initMonState with errorStart := some 95 }
      95 (by decide) rfl
      (of_decide_eq_true (by with_unfolding_all rfl))
      (of_decide_eq_true (by with_unfolding_all rfl))).2
      (1/2) (of_decide_eq_true (by with_unfolding_all rfl))⟩

/-- Counterexample to claim C4 as stated: the line
`"speed=0.5x speed=12.5x"` contains the token `speed=12.5x`, yet the
classifier yields the *first* match of the speed regex, `Speed(0.5)`, not
`Speed(12.5)`. -/
theorem c4_counterexample :
    containsSub "speed=12.5x".data "speed=0.5x speed=12.5x".data = true ∧
    speedTokenValue "speed=0.5x speed=12.5x" = some (1/2) ∧
    (1/2 : ℚ) ≠ 25/2 :=
  ⟨by decide, of_decide_eq_true (by with_unfolding_all rfl), by norm_num⟩

/-- Claim C4, amended: (1) a line containing `speed=12.5x` yields
`Speed(12.5)` provided no earlier `speed=` occurrence precedes the token
(`re.search` returns the first match); (2) a line containing a recognized
decoder-error substring (here `error while decoding`) and no speed token
yields the matching Error kind and no Speed signal; (3) a line with no speed
token and no matching error pattern yields no signal at all — `Ignored`, not
an error. -/
theorem c4_amended_classifier_cases :
    (∀ p s : List Char,
      (∀ i < p.length,
        speedLit.isPrefixOf (p.drop i ++ ("speed=12.5x".data ++ s)) = false) →
      findSpeed (p ++ ("speed=12.5x".data ++ s)) = some (25/2)) ∧
    (∀ line : String, containsSub "error while decoding".data line.data = true →
      speedTokenValue line = none →
      Signal.errSig 1 ∈ classify true line ∧
      ∀ q : ℚ, Signal.speedSig q ∉ classify true line) ∧
    (∀ line : String, speedTokenValue line = none →
      errorFlags line = [false, false, false, false, false] →
      classify true line = []) := by
  refine ⟨?_, ?_, ?_⟩
  · intro p
    induction p with
    | nil =>
      intro s _
      have h1 : findSpeed (([] : List Char) ++ ("speed=12.5x".data ++ s))
          = some (ratOfDigits ['1', '2'] ['5']) := rfl
      rw [h1]
      exact congrArg some (of_decide_eq_true (by with_unfolding_all rfl))
    | cons c p2 ih =>
      intro s H
      have h0 : speedLit.isPrefixOf (c :: (p2 ++ ("speed=12.5x".data ++ s)))
          = false := by
        simpa using H 0 (by simp)
      rw [List.cons_append]
      simp only [findSpeed, h0]
      simp only [Bool.false_eq_true, if_false]
      exact ih s (fun i hi => by
        simpa [List.drop_succ_cons] using H (i + 1) (by simpa using Nat.succ_lt_succ hi))
  · intro line hsub hspeed
    have hflag : searchToks pat2 line.data = true := hsub
    have henum : (errorFlags line).enum
        = [(0, searchToks pat1 line.data), (1, searchToks pat2 line.data),
           (2, searchToks pat3 line.data), (3, searchToks pat4 line.data),
           (4, searchToks pat5 line.data)] := rfl
    constructor
    · simp only [classify, hspeed, List.nil_append, if_true]
      apply List.mem_filterMap.mpr
      refine ⟨(1, searchToks pat2 line.data), ?_, ?_⟩
      · rw [henum]
        simp
      · rw [hflag]
        simp
    · intro q hq
      simp only [classify, hspeed, List.nil_append, if_true] at hq
      rcases List.mem_filterMap.mp hq with ⟨x, _, hgx⟩
      by_cases hx : x.2 = true
      · rw [if_pos hx] at hgx
        exact Signal.noConfusion (Option.some.inj hgx)
      · rw [if_neg hx] at hgx
        exact Option.noConfusion hgx
  · intro line hspeed hflags
    simp only [classify, hspeed, hflags]
    rfl

/-- Witness for C4's amended theorem: a prefixed `speed=12.5x` token parses
to 12.5; a pure error line yields exactly its Error signal; an unrelated
line yields nothing. -/
theorem c4_witness :
    findSpeed (['a'] ++ ("speed=12.5x".data ++ [])) = some (25/2) ∧
    (Signal.errSig 1 ∈ classify true "error while decoding" ∧
      ∀ q : ℚ, Signal.speedSig q ∉ classify true "error while decoding") ∧
    classify true "hello" = [] :=
  ⟨c4_amended_classifier_cases.1 ['a'] [] (by decide),
   c4_amended_classifier_cases.2.1 "error while decoding" (by decide) (by decide),
   c4_amended_classifier_cases.2.2 "hello" (by decide) (by decide)⟩

/-- Claim C5, in three parts over the per-line monitor with errorThreshold 3,
errorResetWindow 20 and cooldown 10.  (a) Three error lines within 5 seconds
(cooldown over) make no switch call before the third line and exactly one at
it.  (b) Three error lines spanning more than the reset window never reach
the threshold: the counter is reset instead and no switch call is ever made.
(c) With errorThreshold 0 the error feature is disabled: no line changes the
error counter or the error window. -/
theorem c5_error_window_thresholds :
    (∀ (oracle : Nat → Bool) (t1 t2 t3 : ℚ), t1 ≤ t2 → t2 ≤ t3 →
      t3 - t1 ≤ 5 → 10 ≤ t3 →
      (runLines errorConfig oracle
        [(t1, "error while decoding"), (t2, "error while decoding")]
        initMonState).switchCalls = 0 ∧
      (runLines errorConfig oracle
        [(t1, "error while decoding"), (t2, "error while decoding"),
         (t3, "error while decoding")]
        initMonState).switchCalls = 1) ∧
    (∀ (oracle : Nat → Bool) (t1 t2 t3 : ℚ), t1 ≤ t2 → t2 ≤ t3 →
      20 < t3 - t1 →
      (runLines errorConfig oracle
        [(t1, "error while decoding"), (t2, "error while decoding"),
         (t3, "error while decoding")]
        initMonState).switchCalls = 0) ∧
    (∀ (cfg : Config) (oracle : Nat → Bool) (T : ℚ) (line : String) (s : MonState),
      cfg.errorThreshold = 0 →
      (processLine cfg oracle T line s).errorCount = s.errorCount ∧
      (processLine cfg oracle T line s).errorStart = s.errorStart) := by
  have hth : (0 : Nat) < errorConfig.errorThreshold := by decide
  have h20 : errorConfig.errorResetTime = (20 : ℚ) := rfl
  have h10 : errorConfig.errorSwitchCooldown = (10 : ℚ) := rfl
  have hl0 : initMonState.lastSwitch = (0 : ℚ) := rfl
  refine ⟨?_, ?_, ?_⟩
  · intro oracle t1 t2 t3 h12 h23 hspan hcool
    have e1 : processLine errorConfig oracle t1 "error while decoding" initMonState
        = { initMonState with errorCount := 1, errorStart := some t1 } := by
      rw [processLine_single_error errorConfig oracle t1 initMonState hth,
        errStep_first errorConfig oracle t1 initMonState rfl
          (le_of_lt (by rw [h20]; norm_num))
          (by decide : ¬(errorConfig.errorThreshold ≤ initMonState.errorCount + 1))]
      rfl
    have hw2 : ¬(errorConfig.errorResetTime < t2 - t1) := by
      rw [h20]; exact not_lt.mpr (by linarith)
    have e2 : processLine errorConfig oracle t2 "error while decoding"
        { initMonState with errorCount := 1, errorStart := some t1 }
        = { initMonState with errorCount := 2, errorStart := some t1 } := by
      rw [processLine_single_error errorConfig oracle t2
          { initMonState with errorCount := 1, errorStart := some t1 } hth,
        errStep_below errorConfig oracle t2 t1
          { initMonState with errorCount := 1, errorStart := some t1 } rfl hw2
          (by decide : ¬(errorConfig.errorThreshold ≤ 1 + 1))]
    have hw3 : ¬(errorConfig.errorResetTime < t3 - t1) := by
      rw [h20]; exact not_lt.mpr (by linarith)
    have hc3 : ¬(t3 - initMonState.lastSwitch < errorConfig.errorSwitchCooldown) := by
      rw [hl0, h10, sub_zero]; exact not_lt.mpr hcool
    have e3 : (processLine errorConfig oracle t3 "error while decoding"
        { initMonState with errorCount := 2, errorStart := some t1 }).switchCalls = 1 := by
      rw [processLine_single_error errorConfig oracle t3
          { initMonState with errorCount := 2, errorStart := some t1 } hth,
        errStep_trigger_calls errorConfig oracle t3 t1
          { initMonState with errorCount := 2, errorStart := some t1 } rfl hw3
          (by decide : errorConfig.errorThreshold ≤ 2 + 1) hc3]
      rfl
    constructor
    · rw [runLines_cons, runLines_cons, runLines_nil, e1, e2]
      rfl
    · rw [runLines_cons, runLines_cons, runLines_cons, runLines_nil, e1, e2]
      exact e3
  · intro oracle t1 t2 t3 h12 h23 hspan
    have e1 : processLine errorConfig oracle t1 "error while decoding" initMonState
        = { initMonState with errorCount := 1, errorStart := some t1 } := by
      rw [processLine_single_error errorConfig oracle t1 initMonState hth,
        errStep_first errorConfig oracle t1 initMonState rfl
          (le_of_lt (by rw [h20]; norm_num))
          (by decide : ¬(errorConfig.errorThreshold ≤ initMonState.errorCount + 1))]
      rfl
    by_cases hmid : errorConfig.errorResetTime < t2 - t1
    · have e2 : processLine errorConfig oracle t2 "error while decoding"
          { initMonState with errorCount := 1, errorStart := some t1 }
          = { initMonState with errorCount := 1, errorStart := some t2 } := by
        rw [processLine_single_error errorConfig oracle t2
            { initMonState with errorCount := 1, errorStart := some t1 } hth,
          errStep_reset errorConfig oracle t2 t1
            { initMonState with errorCount := 1, errorStart := some t1 } rfl hmid
            (by decide : ¬(errorConfig.errorThreshold ≤ 1))]
      by_cases hlast : errorConfig.errorResetTime < t3 - t2
      · have e3 : processLine errorConfig oracle t3 "error while decoding"
            { initMonState with errorCount := 1, errorStart := some t2 }
            = { initMonState with errorCount := 1, errorStart := some t3 } := by
          rw [processLine_single_error errorConfig oracle t3
              { initMonState with errorCount := 1, errorStart := some t2 } hth,
            errStep_reset errorConfig oracle t3 t2
              { initMonState with errorCount := 1, errorStart := some t2 } rfl hlast
              (by decide : ¬(errorConfig.errorThreshold ≤ 1))]
        rw [runLines_cons, runLines_cons, runLines_cons, runLines_nil, e1, e2, e3]
        rfl
      · have e3 : processLine errorConfig oracle t3 "error while decoding"
            { initMonState with errorCount := 1, errorStart := some t2 }
            = { initMonState with errorCount := 2, errorStart := some t2 } := by
          rw [processLine_single_error errorConfig oracle t3
              { initMonState with errorCount := 1, errorStart := some t2 } hth,
            errStep_below errorConfig oracle t3 t2
              { initMonState with errorCount := 1, errorStart := some t2 } rfl hlast
              (by decide : ¬(errorConfig.errorThreshold ≤ 1 + 1))]
        rw [runLines_cons, runLines_cons, runLines_cons, runLines_nil, e1, e2, e3]
        rfl
    · have e2 : processLine errorConfig oracle t2 "error while decoding"
          { initMonState with errorCount := 1, errorStart := some t1 }
          = { initMonState with errorCount := 2, errorStart := some t1 } := by
        rw [processLine_single_error errorConfig oracle t2
            { initMonState with errorCount := 1, errorStart := some t1 } hth,
          errStep_below errorConfig oracle t2 t1
            { initMonState with errorCount := 1, errorStart := some t1 } rfl hmid
            (by decide : ¬(errorConfig.errorThreshold ≤ 1 + 1))]
      have hw3 : errorConfig.errorResetTime < t3 - t1 := by rw [h20]; exact hspan
      have e3 : processLine errorConfig oracle t3 "error while decoding"
          { initMonState with errorCount := 2, errorStart := some t1 }
          = { initMonState with errorCount := 1, errorStart := some t3 } := by
        rw [processLine_single_error errorConfig oracle t3
            { initMonState with errorCount := 2, errorStart := some t1 } hth,
          errStep_reset errorConfig oracle t3 t1
            { initMonState with errorCount := 2, errorStart := some t1 } rfl hw3
            (by decide : ¬(errorConfig.errorThreshold ≤ 1))]
      rw [runLines_cons, runLines_cons, runLines_cons, runLines_nil, e1, e2, e3]
      rfl
  · intro cfg oracle T line s h0
    have hno : ¬(0 < cfg.errorThreshold) := by omega
    simp only [processLine, if_neg hno]
    exact processSpeed_preserves_error cfg oracle T (speedTokenValue line) s

/-- Witness for C5: errors at 10, 12, 14 (within 5 s) give exactly one call;
errors at 0, 12, 25 (spread over 25 s) give none; with the default threshold
0 an error line leaves the counters untouched. -/
theorem c5_witness :
    ((runLines errorConfig (fun _ => true)
        [(10, "error while decoding"), (12, "error while decoding")]
        initMonState).switchCalls = 0 ∧
      (runLines errorConfig (fun _ => true)
        [(10, "error while decoding"), (12, "error while decoding"),
         (14, "error while decoding")]
        initMonState).switchCalls = 1) ∧
    (runLines errorConfig (fun _ => true)
      [(0, "error while decoding"), (12, "error while decoding"),
       (25, "error while decoding")]
      initMonState).switchCalls = 0 ∧
    ((processLine defaultConfig (fun _ => true) 7 "error while decoding"
        initMonState).errorCount = initMonState.errorCount ∧
      (processLine defaultConfig (fun _ => true) 7 "error while decoding"
        initMonState).errorStart = initMonState.errorStart) :=
  ⟨c5_error_window_thresholds.1 (fun _ => true) 10 12 14
      (of_decide_eq_true (by with_unfolding_all rfl))
      (of_decide_eq_true (by with_unfolding_all rfl))
      (of_decide_eq_true (by with_unfolding_all rfl))
      (of_decide_eq_true (by with_unfolding_all rfl)),
   c5_error_window_thresholds.2.1 (fun _ => true) 0 12 25
      (of_decide_eq_true (by with_unfolding_all rfl))
      (of_decide_eq_true (by with_unfolding_all rfl))
      (of_decide_eq_true (by with_unfolding_all rfl)),
   c5_error_window_thresholds.2.2 defaultConfig (fun _ => true) 7
      "error while decoding" initMonState rfl⟩

/-- Claim C6: once the incremented error count reaches a positive
`errorThreshold` (and the reset window has not elapsed), the switch is
invoked only when `T - lastSwitchAt ≥ errorSwitchCooldown` — otherwise it is
skipped for this signal with the count merely incremented; when invoked, a
success resets the count to 0 and sets `lastSwitchAt = T`, while a failure
leaves the count at its incremented value and `lastSwitchAt` unchanged so a
later qualifying error can retry. -/
theorem c6_error_switch_cooldown_outcomes (cfg : Config) (oracle : Nat → Bool)
    (T e : ℚ) (s : MonState)
    (_hth : 0 < cfg.errorThreshold) (hes : s.errorStart = some e)
    (hwin : T - e ≤ cfg.errorResetTime)
    (hreach : cfg.errorThreshold ≤ s.errorCount + 1) :
    (T - s.lastSwitch < cfg.errorSwitchCooldown →
      (errStep cfg oracle T s).1.errorCount = s.errorCount + 1 ∧
      (errStep cfg oracle T s).1.switchCalls = s.switchCalls ∧
      (errStep cfg oracle T s).1.lastSwitch = s.lastSwitch ∧
      (errStep cfg oracle T s).2 = false) ∧
    (cfg.errorSwitchCooldown ≤ T - s.lastSwitch →
      (errStep cfg oracle T s).1.switchCalls = s.switchCalls + 1 ∧
      (oracle s.switchCalls = true →
        (errStep cfg oracle T s).1.errorCount = 0 ∧
        (errStep cfg oracle T s).1.lastSwitch = T) ∧
      (oracle s.switchCalls = false →
        (errStep cfg oracle T s).1.errorCount = s.errorCount + 1 ∧
        (errStep cfg oracle T s).1.lastSwitch = s.lastSwitch ∧
        (errStep cfg oracle T s).1.errorStart = some e)) := by
  have hnoreset : ¬(cfg.errorResetTime < T - e) := not_lt.mpr hwin
  constructor
  · intro hcool
    simp only [errStep, hes, Option.getD_some]
    rw [if_neg hnoreset, if_pos hreach, if_pos hcool]
    exact ⟨rfl, rfl, rfl, rfl⟩
  · intro hcool
    simp only [errStep, hes, Option.getD_some]
    rw [if_neg hnoreset, if_pos hreach, if_neg (not_lt.mpr hcool)]
    rcases horacle : oracle s.switchCalls with _ | _
    · simp [horacle]
    · simp [horacle]

/-- Witness for C6 at concrete states: within the cooldown the switch is
skipped; past the cooldown a failed call leaves the counters for retry. -/
theorem c6_witness :
    (errStep { defaultConfig with errorThreshold := 3 } (fun _ => false) 12
      { initMonState with errorCount := 2, errorStart := some 8, lastSwitch := 6 }).1.switchCalls = 0 ∧
    (errStep { defaultConfig with errorThreshold := 3 } (fun _ => false) 20
      { initMonState with errorCount := 2, errorStart := some 8, lastSwitch := 6 }).1.errorCount = 3 :=
  ⟨((c6_error_switch_cooldown_outcomes { defaultConfig with errorThreshold := 3 }
      (fun _ => false) 12 8
      { initMonState with errorCount := 2, errorStart := some 8, lastSwitch := 6 }
      (of_decide_eq_true (by with_unfolding_all rfl)) rfl
      (of_decide_eq_true (by with_unfolding_all rfl))
      (of_decide_eq_true (by with_unfolding_all rfl))).1
      (of_decide_eq_true (by with_unfolding_all rfl))).2.1,
   (((c6_error_switch_cooldown_outcomes { defaultConfig with errorThreshold := 3 }
      (fun _ => false) 20 8
      { initMonState with errorCount := 2, errorStart := some 8, lastSwitch := 6 }
      (of_decide_eq_true (by with_unfolding_all rfl)) rfl
      (of_decide_eq_true (by with_unfolding_all rfl))
      (of_decide_eq_true (by with_unfolding_all rfl))).2
      (of_decide_eq_true (by with_unfolding_all rfl))).2.2 rfl).1⟩

/-- Claim C7: a speed reading at or above the threshold clears the buffering
timer and the switch flag (state returns to Healthy), and a repeated healthy
reading is absorbed — it leaves exactly the state a single healthy reading
would have produced. -/
theorem c7_healthy_reading_clears_buffering
    (cfg : Config) (oracle : Nat → Bool) (T T2 v v2 : ℚ) (s : MonState)
    (hv : cfg.speedThreshold ≤ v) (hv2 : cfg.speedThreshold ≤ v2) :
    (processSpeed cfg oracle T (some v) s).bufferStart = none ∧
    (processSpeed cfg oracle T (some v) s).streamSwitched = false ∧
    processSpeed cfg oracle T2 (some v2) (processSpeed cfg oracle T (some v) s)
      = processSpeed cfg oracle T2 (some v2) s := by
  refine ⟨?_, ?_, ?_⟩
  · simp [processSpeed, not_lt.mpr hv]
  · simp [processSpeed, not_lt.mpr hv]
  · simp [processSpeed, not_lt.mpr hv, not_lt.mpr hv2]

/-- Witness for C7 at a concrete buffering state and two healthy readings. -/
theorem c7_witness :
    (processSpeed defaultConfig (fun _ => true) 40 (some 1)
      { initMonState with bufferStart := some 0, streamSwitched := true }).bufferStart
        = none ∧
    (processSpeed defaultConfig (fun _ => true) 40 (some 1)
      { initMonState with bufferStart := some 0, streamSwitched := true }).streamSwitched
        = false ∧
    processSpeed defaultConfig (fun _ => true) 45 (some 2)
        (processSpeed defaultConfig (fun _ => true) 40 (some 1)
          { initMonState with bufferStart := some 0, streamSwitched := true })
      = processSpeed defaultConfig (fun _ => true) 45 (some 2)
          { initMonState with bufferStart := some 0, streamSwitched := true } :=
  c7_healthy_reading_clears_buffering defaultConfig (fun _ => true) 40 45 1 2
    { initMonState with bufferStart := some 0, streamSwitched := true }
    (of_decide_eq_true (by with_unfolding_all rfl))
    (of_decide_eq_true (by with_unfolding_all rfl))

/-- Claim C8: in one reconciliation tick over the snapshot
`{A: clients = [], B: clients = ["Buffer Watchdog"]}` with A and B previously
unsupervised, a watchdog is started for A only, and afterwards A is
supervised (live process handle registered) while B is not. -/
theorem c8_reconcile_starts_a_not_b :
    (reconcileTick "Buffer Watchdog"
      [⟨"A", "NameA", []⟩, ⟨"B", "NameB", ["Buffer Watchdog"]⟩]
      emptyWatchState).2 = ["A"] ∧
    alistLookup "A" (reconcileTick "Buffer Watchdog"
      [⟨"A", "NameA", []⟩, ⟨"B", "NameB", ["Buffer Watchdog"]⟩]
      emptyWatchState).1.processes = some true ∧
    alistLookup "B" (reconcileTick "Buffer Watchdog"
      [⟨"A", "NameA", []⟩, ⟨"B", "NameB", ["Buffer Watchdog"]⟩]
      emptyWatchState).1.processes = none := by
  refine ⟨?_, ?_, ?_⟩ <;> decide

/-- Claim C9: `stop_watchdog` is idempotent on the per-stream state: a second
stop immediately after a first one is a no-op that sends no terminate/kill
signal, a stop of an already-exited handle sends no signal, and after a stop
no per-stream map retains an entry for the stream id. -/
theorem c9_stop_watchdog_idempotent (w : WatchState) (stream_id : String) :
    stop_watchdog stream_id (stop_watchdog stream_id w).1
      = ((stop_watchdog stream_id w).1, 0) ∧
    alistLookup stream_id (stop_watchdog stream_id w).1.processes = none ∧
    alistLookup stream_id (stop_watchdog stream_id w).1.speeds = none ∧
    alistLookup stream_id (stop_watchdog stream_id w).1.names = none ∧
    alistLookup stream_id (stop_watchdog stream_id w).1.bufferStarts = none ∧
    stream_id ∉ (stop_watchdog stream_id w).1.actionTriggered ∧
    (alistLookup stream_id w.processes = some false →
      (stop_watchdog stream_id w).2 = 0) := by
  refine ⟨?_, ?_, ?_, ?_, ?_, ?_, ?_⟩
  · simp [stop_watchdog, alistLookup_erase_self, alistErase_idem, setDiscard_idem]
  · simp [stop_watchdog, alistLookup_erase_self]
  · simp [stop_watchdog, alistLookup_erase_self]
  · simp [stop_watchdog, alistLookup_erase_self]
  · simp [stop_watchdog, alistLookup_erase_self]
  · simpa [stop_watchdog] using not_mem_setDiscard stream_id w.actionTriggered
  · intro h
    simp [stop_watchdog, h]

/-- Witness for C9 at a concrete state: stream "A" has an already-exited
handle; the stop sends no signal and a repeated stop is a no-op. -/
theorem c9_witness :
    (stop_watchdog "A"
      (stop_watchdog "A"
        { emptyWatchState with processes := [("A", false)] }).1)
      = ((stop_watchdog "A"
          { emptyWatchState with processes := [("A", false)] }).1, 0) ∧
    (stop_watchdog "A" { emptyWatchState with processes := [("A", false)] }).2 = 0 :=
  ⟨(c9_stop_watchdog_idempotent
      { emptyWatchState with processes := [("A", false)] } "A").1,
   (c9_stop_watchdog_idempotent
      { emptyWatchState with processes := [("A", false)] } "A").2.2.2.2.2.2 rfl⟩

/-- Counterexample to claim C10 as stated: a response that passes
`raise_for_status` and parses as the JSON object `{"message": ""}` makes
`send_next_stream` return `False`, so the return value is not `True`
"regardless of the JSON content". -/
theorem c10_counterexample :
    send_next_stream_success [("message", JVal.jstr "")] = false := by
  decide

/-- Claim C10, amended: once the request has passed `raise_for_status` and
the body parsed as a JSON object, `send_next_stream` returns `True` exactly
when the `message` field is absent (the non-empty default is truthy) or
truthy — in particular for every non-empty message string, error messages
included; a falsy `message` value such as `""` yields `False`. -/
theorem c10_amended_success_iff_message_truthy
    (body : List (String × JVal)) (msg : String) :
    (alistLookup "message" body = none → send_next_stream_success body = true) ∧
    (alistLookup "message" body = some (JVal.jstr msg) →
      (send_next_stream_success body = true ↔ msg ≠ "")) := by
  constructor
  · intro h
    simp [send_next_stream_success, dispatcharrMessage, h, truthy]
  · intro h
    simp [send_next_stream_success, dispatcharrMessage, h, truthy]

/-- Witness for C10 at concrete bodies: the missing-key default yields
`True`, and a non-empty (error) message also yields `True`. -/
theorem c10_witness :
    send_next_stream_success [] = true ∧
    (send_next_stream_success [("message", JVal.jstr "no stream available")] = true
      ↔ "no stream available" ≠ "") :=
  ⟨(c10_amended_success_iff_message_truthy [] "").1 rfl,
   (c10_amended_success_iff_message_truthy
      [("message", JVal.jstr "no stream available")] "no stream available").2 rfl⟩

end StreamWatchdog
